import Mathlib

/-!
Verification of `snaql/factory.py` (rmuslimov/snaql).

The module compiles annotated Jinja template files into named SQL-query
generator functions.  We shallowly embed the parts the claims are about:

* the block registry (`sql_params['funcs']`): a mapping from block name to a
  block record with fields `raw_sql`, `sql`, `note`, `is_cond`, `cond_for`,
  `conds` — embedded as an association list `Funcs`;
* `JinjaSQLExtension._sql_process` (the normalization render pass);
* `Snaql.gen_func` with its inner `subrender_cond` and `fn` closures.

The generic Jinja template engine is an external collaborator (the spec
excludes it); a render operation `env.from_string(tmpl).render(**ctx)` is
embedded as an abstract function `Env := String → Kwargs → String` passed in,
mirroring the `env` parameter of `gen_func` itself.  Theorems quantify over
all such render functions; concrete witnesses supply small executable ones.

Python dynamic values that may appear as keyword arguments are embedded by
the inductive `Value`: text, integers, callables (carrying the `__name__`
attribute and an optional `is_cond` attribute — `none` models a callable on
which attribute access raises `AttributeError`), and lists.  Python
exceptions are embedded by `PyErr`; `SnaqlException` instances are
distinguished by their two message shapes (`scopeError`, `condMismatch`).
-/

set_option autoImplicit false

/-- Python `s.strip()`: remove leading and trailing whitespace.  Implemented
over the character list so it evaluates by kernel reduction (the core
`String.trim` recurses on byte positions and does not reduce
definitionally). -/
def String.pyStripped (s : String) : String :=
  String.mk (((s.data.dropWhile Char.isWhitespace).reverse.dropWhile
    Char.isWhitespace).reverse)

namespace Snaql

/-- A Python runtime value that can be passed as a keyword argument to a
generator function.  `callable fname iscond` embeds a function object with
`__name__ = fname`; `iscond = some b` means the object carries an `is_cond`
attribute equal to `b` (generator functions built by `gen_func` always do),
while `iscond = none` embeds an arbitrary callable without that attribute. -/
inductive Value where
  | text (s : String)
  | int (n : Int)
  | callable (fname : String) (iscond : Option Bool)
  | list (vs : List Value)

mutual

/-- Structural decidable equality for embedded values (the nested `list`
constructor keeps the standard deriving handler from applying). -/
def Value.decEq : (a b : Value) → Decidable (a = b)
  | .text s, .text t =>
    if h : s = t then .isTrue (by rw [h]) else .isFalse (fun hh => h (by cases hh; rfl))
  | .text _, .int _ => .isFalse (fun hh => Value.noConfusion hh)
  | .text _, .callable _ _ => .isFalse (fun hh => Value.noConfusion hh)
  | .text _, .list _ => .isFalse (fun hh => Value.noConfusion hh)
  | .int _, .text _ => .isFalse (fun hh => Value.noConfusion hh)
  | .int m, .int n =>
    if h : m = n then .isTrue (by rw [h]) else .isFalse (fun hh => h (by cases hh; rfl))
  | .int _, .callable _ _ => .isFalse (fun hh => Value.noConfusion hh)
  | .int _, .list _ => .isFalse (fun hh => Value.noConfusion hh)
  | .callable _ _, .text _ => .isFalse (fun hh => Value.noConfusion hh)
  | .callable _ _, .int _ => .isFalse (fun hh => Value.noConfusion hh)
  | .callable f a, .callable g b =>
    if h1 : f = g then
      if h2 : a = b then .isTrue (by rw [h1, h2])
      else .isFalse (fun hh => h2 (by cases hh; rfl))
    else .isFalse (fun hh => h1 (by cases hh; rfl))
  | .callable _ _, .list _ => .isFalse (fun hh => Value.noConfusion hh)
  | .list _, .text _ => .isFalse (fun hh => Value.noConfusion hh)
  | .list _, .int _ => .isFalse (fun hh => Value.noConfusion hh)
  | .list _, .callable _ _ => .isFalse (fun hh => Value.noConfusion hh)
  | .list as, .list bs =>
    match Value.decEqList as bs with
    | .isTrue h => .isTrue (by rw [h])
    | .isFalse h => .isFalse (fun hh => h (by cases hh; rfl))

/-- Decidable equality for lists of embedded values. -/
def Value.decEqList : (as bs : List Value) → Decidable (as = bs)
  | [], [] => .isTrue rfl
  | [], _ :: _ => .isFalse (fun hh => List.noConfusion hh)
  | _ :: _, [] => .isFalse (fun hh => List.noConfusion hh)
  | a :: as, b :: bs =>
    match Value.decEq a b with
    | .isFalse h => .isFalse (fun hh => h (by cases hh; rfl))
    | .isTrue h1 =>
      match Value.decEqList as bs with
      | .isTrue h2 => .isTrue (by rw [h1, h2])
      | .isFalse h2 => .isFalse (fun hh => h2 (by cases hh; rfl))

end

instance : DecidableEq Value := Value.decEq

instance {ε α : Type} [DecidableEq ε] [DecidableEq α] :
    DecidableEq (Except ε α) := fun a b =>
  match a, b with
  | .ok x, .ok y =>
    if h : x = y then .isTrue (by rw [h]) else .isFalse (fun hh => h (by cases hh; rfl))
  | .error x, .error y =>
    if h : x = y then .isTrue (by rw [h]) else .isFalse (fun hh => h (by cases hh; rfl))
  | .ok _, .error _ => .isFalse (fun hh => Except.noConfusion hh)
  | .error _, .ok _ => .isFalse (fun hh => Except.noConfusion hh)

/-- Python truthiness (`if v:`) for the embedded values: non-empty strings,
non-zero integers, function objects, and non-empty lists are truthy. -/
def Value.truthy : Value → Bool
  | .text s => !s.isEmpty
  | .int n => n != 0
  | .callable _ _ => true
  | .list vs => !vs.isEmpty

/-- `isinstance(v, collections.Callable)` for the embedded values. -/
def Value.isCallable : Value → Bool
  | .callable _ _ => true
  | _ => false

/-- `isinstance(v, collections.Iterable) and not isinstance(v, types.StringTypes)`
for the embedded values: only lists qualify (strings are iterable but are
text types; integers and function objects are not iterable). -/
def Value.isNonTextIterable : Value → Bool
  | .list _ => true
  | _ => false

/-- One registry entry of `sql_params['funcs']` (see §3 of the design).
`cond_for = none` embeds absence of the `'cond_for'` key (reading it raises
`KeyError`); `conds` defaults to the empty list (`setdefault('conds', [])`). -/
structure Block where
  raw_sql : String
  sql : String
  note : Option String
  is_cond : Bool
  cond_for : Option String
  conds : List String
  deriving Repr, DecidableEq

/-- The registry `sql_params['funcs']`, embedded as an association list from
block name to block record (one entry per key, like a Python dict). -/
abbrev Funcs := List (String × Block)

/-- Keyword arguments of a generator call (`**kwargs`), embedded as an
association list; it doubles as the render context passed to the engine. -/
abbrev Kwargs := List (String × Value)

/-- `funcs.get(name)` / `funcs[name]`: first entry with the given key. -/
def lookupF : Funcs → String → Option Block
  | [], _ => none
  | (k, b) :: rest, name => if k = name then some b else lookupF rest name

/-- `funcs[name] = blk`: replace the value at the first occurrence of the
key, or append a fresh entry when the key is absent (Python dict update). -/
def updateF : Funcs → String → Block → Funcs
  | [], name, blk => [(name, blk)]
  | (k, b) :: rest, name, blk =>
    if k = name then (k, blk) :: rest else (k, b) :: updateF rest name blk

/-- `kwargs[point]`: first entry with the given key. -/
def lookupK : Kwargs → String → Option Value
  | [], _ => none
  | (k, v) :: rest, point => if k = point then some v else lookupK rest point

/-- `kwargs[point] = v`: replace at the first occurrence of the key, or
append a fresh entry when the key is absent. -/
def updateK : Kwargs → String → Value → Kwargs
  | [], point, v => [(point, v)]
  | (k, w) :: rest, point, v =>
    if k = point then (k, v) :: rest else (k, w) :: updateK rest point v

/-- Embedded Python exceptions.  `scopeError name owner` embeds the
`SnaqlException` raised by `fn` for a direct call on a conditional block
("NAME is condition for OWNER and can not be rendered outside of its
scope"); `condMismatch fname owner` embeds the `SnaqlException` raised by
`subrender_cond` ("FNAME is not proper condition for OWNER"); the other two
embed Python `AttributeError` and `KeyError`. -/
inductive PyErr where
  | scopeError (name owner : String)
  | condMismatch (fname owner : String)
  | attributeError (attr : String)
  | keyError (key : String)
  deriving Repr, DecidableEq

/-- Whether the embedded exception is a `SnaqlException` (the library's own
documented error class) as opposed to a raw Python error. -/
def PyErr.isSnaqlException : PyErr → Bool
  | .scopeError _ _ => true
  | .condMismatch _ _ => true
  | _ => false

/-- The abstract template-render engine: `env.from_string(tmpl).render(**ctx)`.
The engine is an external collaborator of the specified core, so theorems
quantify over it. -/
abbrev Env := String → Kwargs → String

/-- `escape_string` is imported from `snaql/convertors.py`, which is not part
of the sources under verification.  Modelled from the spec: given arbitrary
text, double every single-quote character and apply no other transformation
(§4.1 of the design). -/
def escape_string (s : String) : String :=
  String.mk (s.data.foldr
    (fun c acc => if c = Char.ofNat 39 then Char.ofNat 39 :: Char.ofNat 39 :: acc else c :: acc)
    [])

/-- Embedding of the inner closure `subrender_cond(owner_name, cond_func,
context)` of `Snaql.gen_func` (factory.py lines 140-153).

```
if isinstance(cond_func, collections.Callable) and cond_func.is_cond:
    if meta_struct['funcs'][cond_func.__name__]['cond_for'] != owner_name:
        raise SnaqlException('"%s" is not proper condition for "%s"' ...)
    cond_tmpl = env.from_string(meta_struct['funcs'][cond_func.__name__]['raw_sql'])
    return cond_tmpl.render(**context).strip()
return cond_func
```

Attribute access `cond_func.is_cond` on a callable without the attribute
raises `AttributeError`; the registry subscripts may raise `KeyError`. -/
def subrender_cond (env : Env) (funcs : Funcs) (owner_name : String)
    (cond_func : Value) (context : Kwargs) : Except PyErr Value :=
  match cond_func with
  | .callable fname iscond =>
    match iscond with
    | none => .error (.attributeError "is_cond")
    | some b =>
      if b then
        match lookupF funcs fname with
        | none => .error (.keyError fname)
        | some blk =>
          match blk.cond_for with
          | none => .error (.keyError "cond_for")
          | some owner =>
            if owner ≠ owner_name then
              .error (.condMismatch fname owner_name)
            else
              .ok (.text ((env blk.raw_sql context).pyStripped))
      else .ok cond_func
  | v => .ok v

/-- Elements of a list value (`for v in val` in the sequence branch; only
reached when `val.isNonTextIterable`). -/
def Value.elems : Value → List Value
  | .list vs => vs
  | _ => []

/-- The parameter-resolution loop of `fn` (factory.py lines 161-171) is
embedded by `mapSubrender` and `resolveLoop` below.  The Python text:

```
for point, val in kwargs.items():
    maybe_cond_sql = subrender_cond(name, val, kwargs)
    if maybe_cond_sql:
        kwargs[point] = maybe_cond_sql
    if (isinstance(val, collections.Iterable)
            and not isinstance(val, types.StringTypes)):
        val = [subrender_cond(name, v, kwargs) for v in val]
        kwargs[point] = [v for v in val if v]
```

`mapSubrender` embeds the comprehension `[subrender_cond(name, v, kwargs) for v in val]`:
elements are processed left to right over the fixed current `kwargs`, and the
first exception aborts the whole call. -/
def mapSubrender (env : Env) (funcs : Funcs) (name : String) :
    List Value → Kwargs → Except PyErr (List Value)
  | [], _ => .ok []
  | v :: vs, cur =>
    match subrender_cond env funcs name v cur with
    | .error e => .error e
    | .ok r =>
      match mapSubrender env funcs name vs cur with
      | .error e => .error e
      | .ok rs => .ok (r :: rs)

/-- One pass of the `for point, val in kwargs.items():` loop (see
`mapSubrender` above for the Python text): `items` is the snapshot Python 2's
`kwargs.items()` produced before the loop started (assignments to existing
keys do not affect it), and `cur` is the live `kwargs` dict, also passed to
`subrender_cond` as the render context, so later iterations see earlier
substitutions. -/
def resolveLoop (env : Env) (funcs : Funcs) (name : String) :
    List (String × Value) → Kwargs → Except PyErr Kwargs
  | [], cur => .ok cur
  | (point, val) :: rest, cur =>
    match subrender_cond env funcs name val cur with
    | .error e => .error e
    | .ok maybe_cond_sql =>
      let cur1 := if maybe_cond_sql.truthy then updateK cur point maybe_cond_sql else cur
      if val.isNonTextIterable then
        match mapSubrender env funcs name val.elems cur1 with
        | .error e => .error e
        | .ok vals =>
          resolveLoop env funcs name rest
            (updateK cur1 point (.list (vals.filter Value.truthy)))
      else
        resolveLoop env funcs name rest cur1

/-- Embedding of the inner closure `fn(**kwargs)` of `Snaql.gen_func`
(factory.py lines 155-177), the generator function for block `name` over the
registry snapshot `funcs`.

```
def fn(**kwargs):
    if meta_struct['funcs'][name]['is_cond']:
        raise SnaqlException('"%s" is condition for "%s" and can not '
                             'be rendered outside of it s scope'
                             % (name, meta_struct['funcs'][name]['cond_for']))
    if kwargs:
        for point, val in kwargs.items():
            ...                                   -- resolveLoop
        sql_tmpl = env.from_string(meta_struct['funcs'][name]['raw_sql'])
        sql_raw = sql_tmpl.render(**kwargs).strip()
        return escape_string(sql_raw)
    return meta_struct['funcs'][name]['sql']
```
-/
def fn (env : Env) (funcs : Funcs) (name : String) (kwargs : Kwargs) :
    Except PyErr String :=
  match lookupF funcs name with
  | none => .error (.keyError name)
  | some blk =>
    if blk.is_cond then
      match blk.cond_for with
      | none => .error (.keyError "cond_for")
      | some owner => .error (.scopeError name owner)
    else if kwargs.isEmpty then
      .ok blk.sql
    else
      match resolveLoop env funcs name kwargs kwargs with
      | .error e => .error e
      | .ok cur => .ok (escape_string ((env blk.raw_sql cur).pyStripped))

/-- The attributes `gen_func` attaches to the generator it builds for block
`name` (factory.py lines 179-181): `fn.__doc__ = ...['note']` and
`fn.is_cond = ...['is_cond']` (`fn.func_name = name` is the name itself). -/
def genAttrs (funcs : Funcs) (name : String) : Option (Option String × Bool) :=
  (lookupF funcs name).map (fun b => (b.note, b.is_cond))

/-- Heap-level embedding of one generator call: the pair carries the result
together with the registry snapshot after the call.  `fn` only ever reads
`meta_struct` (factory.py lines 156-159, 173, 177); its sole assignments
target the call-local `kwargs` dict (lines 164, 171), threaded inside
`resolveLoop`, so the registry component of the result is the input
registry. -/
def fnCall (env : Env) (funcs : Funcs) (name : String) (kwargs : Kwargs) :
    Except PyErr String × Funcs :=
  (fn env funcs name kwargs, funcs)

/-- A sequence of generator calls against one registry snapshot, threading
the snapshot state through every call (`load_queries` builds all generators
over the single deep-copied `meta_struct`). -/
def runCalls (env : Env) : List (String × Kwargs) → Funcs → List (Except PyErr String) × Funcs
  | [], funcs => ([], funcs)
  | (name, kw) :: rest, funcs =>
    let rf := fnCall env funcs name kw
    let rs := runCalls env rest rf.2
    (rf.1 :: rs.1, rs.2)

/-- One parsed `{% sql %}` block declaration, as seen by the normalization
render pass: `func` is the block name expression's value, `note`/`cond_for`
the optional modifier (at most one of the two), `raw_sql` the whitespace-joined
slice of the raw template lines stored at parse time (factory.py lines 84-87),
and `body` the text produced by `caller()` when the block body renders. -/
structure BlockDecl where
  func : String
  note : Option String
  cond_for : Option String
  raw_sql : String
  body : String

/-- The registry entry created at parse time holds only the `'raw_sql'` key;
the remaining fields model the absent keys by their defaults.  No code path
reads `sql`, `note`, `is_cond` or `cond_for` on an entry before
`_sql_process` writes them, and `conds` is only accessed through
`setdefault('conds', [])`, whose value on an absent key is `[]`. -/
def Block.fresh (raw : String) : Block :=
  { raw_sql := raw, sql := "", note := none, is_cond := false,
    cond_for := none, conds := [] }

/-- The parse phase (factory.py lines 61-91): every block declaration of the
template registers `{'raw_sql': ...}` under its name, in source order, before
the template is rendered.  A duplicate name overwrites the earlier entry, as
`dict.update` does. -/
def registerBlocks (decls : List BlockDecl) : Funcs :=
  decls.foldl (fun fs d => updateF fs d.func (Block.fresh d.raw_sql)) []

/-- Python `s.split()` with no separator: the maximal whitespace-free runs
of `s`, left to right (`acc` carries the current run, reversed).  Implemented
over the character list so it evaluates by kernel reduction. -/
def pyWords : List Char → List Char → List String
  | [], acc => if acc.isEmpty then [] else [String.mk acc.reverse]
  | c :: cs, acc =>
    if c.isWhitespace then
      if acc.isEmpty then pyWords cs [] else String.mk acc.reverse :: pyWords cs []
    else
      pyWords cs (c :: acc)

/-- Python `' '.join(s.split())`: split on whitespace runs (discarding empty
pieces) and rejoin with single spaces. -/
def pyCollapseWs (s : String) : String :=
  " ".intercalate (pyWords s.data [])

/-- Embedding of `JinjaSQLExtension._sql_process` (factory.py lines 93-110),
executed once per block when the template is rendered:

```
raw_sql = ' '.join(caller().split())
if 'cond_for' in kwargs:
    origin = self.environment.sql_params['funcs'].get(kwargs['cond_for'])
    if origin:
        origin.setdefault('conds', []).append(kwargs['cond_for'])
origin = self.environment.sql_params['funcs'].get(kwargs['func'])
origin.update({
    'sql': raw_sql,
    'note': kwargs.get('note'),
    'is_cond': 'cond_for' in kwargs,
})
if origin['is_cond']:
    origin['cond_for'] = kwargs['cond_for']
```

Note that the owner branch appends `kwargs['cond_for']` — the owner's own
name — to the owner's `conds` list, and silently skips when the owner has no
entry; `origin.update(...)` on a `None` origin (undeclared `func`) would be
an `AttributeError`. -/
def sql_process (funcs : Funcs) (d : BlockDecl) : Except PyErr Funcs :=
  let raw_sql := pyCollapseWs d.body
  let funcs1 :=
    match d.cond_for with
    | some owner =>
      match lookupF funcs owner with
      | some origin => updateF funcs owner { origin with conds := origin.conds ++ [owner] }
      | none => funcs
    | none => funcs
  match lookupF funcs1 d.func with
  | none => .error (.attributeError "update")
  | some origin =>
    .ok (updateF funcs1 d.func
      { origin with
        sql := raw_sql
        note := d.note
        is_cond := d.cond_for.isSome
        cond_for := if d.cond_for.isSome then d.cond_for else origin.cond_for })

/-- The whole compilation pass over one template file: parse-time
registration of every declared block, then the single normalization render,
which executes `_sql_process` once per block in source order
(`template.render()` in `load_queries`, factory.py line 187). -/
def renderTemplate (decls : List BlockDecl) : Except PyErr Funcs :=
  decls.foldlM sql_process (registerBlocks decls)

/-- The `raw_sql` recorded for block `f`, with `""` for an absent entry
(total-function convenience for stating theorems whose hypotheses guarantee
presence). -/
def rawOf (funcs : Funcs) (f : String) : String :=
  ((lookupF funcs f).map Block.raw_sql).getD ""

/-- Two registry entries that agree on every field except possibly `conds`. -/
def Block.AgreesExceptConds (b1 b2 : Block) : Prop :=
  b1.raw_sql = b2.raw_sql ∧ b1.sql = b2.sql ∧ b1.note = b2.note ∧
  b1.is_cond = b2.is_cond ∧ b1.cond_for = b2.cond_for

/-- Two registry snapshots with the same keys in the same order whose entries
agree on every field except possibly `conds`. -/
def FuncsAgreeExceptConds (fs1 fs2 : Funcs) : Prop :=
  List.Forall₂ (fun p q => p.1 = q.1 ∧ Block.AgreesExceptConds p.2 q.2) fs1 fs2

/-! ### Concrete fixtures

A small compiled unit used by witnesses and counterexamples: a top-level
block `users` and three conditional blocks, two owned by `users` and one
owned by `orders`.  `envDemo` is one admissible render engine for the
fixture's four template strings (written as opaque keys; the Jinja source
each one stands for is given in its branch's comment). -/

/-- A single-quote character, as a string (SQL literals in fixtures). -/
def sq : String := String.singleton (Char.ofNat 39)

/-- How Jinja's default stringification displays an embedded value when it is
substituted into output text: strings as themselves, integers in decimal, a
function object by a `function NAME` marker (standing for Python's
`<function NAME at 0x...>` repr, with the address elided so rendering stays
deterministic). -/
def Value.pystr : Value → String
  | .text s => s
  | .int n => toString n
  | .callable f _ => "function " ++ f
  | .list _ => "list"

/-- Static `sql` of the `users` block; contains single quotes, so it is
visibly distinct from its `escape_string` image. -/
def usersSql : String :=
  "SELECT * FROM users WHERE name = " ++ sq ++ "Bob" ++ sq

def usersBlock : Block :=
  { raw_sql := "USERS_TMPL", sql := usersSql, note := some "all users",
    is_cond := false, cond_for := none, conds := ["users", "users"] }

def byAgeBlock : Block :=
  { raw_sql := "BY_AGE_TMPL", sql := "", note := none,
    is_cond := true, cond_for := some "users", conds := [] }

def byStatusBlock : Block :=
  { raw_sql := "BY_STATUS_TMPL", sql := "AND status = 1", note := none,
    is_cond := true, cond_for := some "users", conds := [] }

def byCityBlock : Block :=
  { raw_sql := "BY_CITY_TMPL", sql := "AND city = 7", note := none,
    is_cond := true, cond_for := some "orders", conds := [] }

def demoFuncs : Funcs :=
  [("users", usersBlock), ("by_age", byAgeBlock),
   ("by_status", byStatusBlock), ("by_city", byCityBlock)]

/-- `demoFuncs` with the (never-read) `conds` lists changed. -/
def demoFuncsAltConds : Funcs :=
  [("users", { usersBlock with conds := [] }),
   ("by_age", { byAgeBlock with conds := ["x"] }),
   ("by_status", byStatusBlock),
   ("by_city", { byCityBlock with conds := ["orders", "y"] })]

/-- A concrete render engine for the fixture templates.
* `USERS_TMPL` stands for `SELECT * FROM users{% if c %} WHERE {{ c }}{% endif %}`:
  when the context value `c` is truthy the fragment is emitted with the
  value's stringification, otherwise nothing is.
* `BY_AGE_TMPL` stands for `{% if flag %}AND age > 21{% endif %}`: it renders
  to the empty string unless the context has a truthy `flag`.
* `BY_STATUS_TMPL` and `BY_CITY_TMPL` are static fragments. -/
def envDemo : Env := fun tmpl ctx =>
  if tmpl = "USERS_TMPL" then
    "SELECT * FROM users" ++
      (match lookupK ctx "c" with
       | some v => if v.truthy then " WHERE " ++ v.pystr else ""
       | none => "")
  else if tmpl = "BY_AGE_TMPL" then
    match lookupK ctx "flag" with
    | some v => if v.truthy then "AND age > 21" else ""
    | none => ""
  else if tmpl = "BY_STATUS_TMPL" then "AND status = 1"
  else if tmpl = "BY_CITY_TMPL" then "AND city = 7"
  else ""

/-- The call `users(c=by_age_generator)` where the conditional renders to an
empty string (no `flag` in the context). -/
def demoKw : Kwargs := [("c", Value.callable "by_age" (some true))]

/-- Declarations of a two-block template file: `users` and a conditional
`by_age` with `cond_for = users`, in that source order. -/
def declUsers : BlockDecl :=
  { func := "users", note := none, cond_for := none,
    raw_sql := "USERS_TMPL", body := "  SELECT *  FROM users  " }

def declByAge : BlockDecl :=
  { func := "by_age", note := none, cond_for := some "users",
    raw_sql := "BY_AGE_TMPL", body := " AND age > 21 " }

def demoDecls : List BlockDecl := [declUsers, declByAge]

/-- The registry produced by compiling `demoDecls` (parse-time registration
followed by the normalization render). -/
def demoNormalized : Funcs := (renderTemplate demoDecls).toOption.getD []

/-! ### Helper lemmas -/

/-- Unfolding equation for one iteration of the resolution loop. -/
theorem resolveLoop_cons (env : Env) (funcs : Funcs) (name point : String)
    (val : Value) (rest : List (String × Value)) (cur : Kwargs) :
    resolveLoop env funcs name ((point, val) :: rest) cur =
      match subrender_cond env funcs name val cur with
      | .error e => .error e
      | .ok m =>
        let cur1 := if m.truthy then updateK cur point m else cur
        if val.isNonTextIterable then
          match mapSubrender env funcs name val.elems cur1 with
          | .error e => .error e
          | .ok vals =>
            resolveLoop env funcs name rest
              (updateK cur1 point (.list (vals.filter Value.truthy)))
        else
          resolveLoop env funcs name rest cur1 := rfl

/-- Processing a concatenation of items processes the first part, then the
second from the state the first one reached. -/
theorem resolveLoop_append (env : Env) (funcs : Funcs) (name : String)
    (l1 l2 : List (String × Value)) (cur : Kwargs) :
    resolveLoop env funcs name (l1 ++ l2) cur =
      match resolveLoop env funcs name l1 cur with
      | .error e => .error e
      | .ok c => resolveLoop env funcs name l2 c := by
  induction l1 generalizing cur with
  | nil => simp [resolveLoop]
  | cons item rest ih =>
    obtain ⟨point, val⟩ := item
    rw [List.cons_append, resolveLoop_cons, resolveLoop_cons]
    cases hsub : subrender_cond env funcs name val cur with
    | error e => simp
    | ok m =>
      by_cases hit : val.isNonTextIterable
      · simp only [hit, if_true]
        cases hmap : mapSubrender env funcs name val.elems
            (if m.truthy then updateK cur point m else cur) with
        | error e => simp
        | ok vals => simp [ih]
      · simp only [hit, if_false, Bool.false_eq_true]
        exact ih _

/-- Updating a key leaves lookups of that key at the new value. -/
theorem lookupF_updateF_self (fs : Funcs) (k : String) (b : Block) :
    lookupF (updateF fs k b) k = some b := by
  induction fs with
  | nil => simp [updateF, lookupF]
  | cons hd tl ih =>
    obtain ⟨k0, b0⟩ := hd
    by_cases h : k0 = k <;> simp [updateF, lookupF, h, ih]

/-- Updating a key leaves lookups of other keys unchanged. -/
theorem lookupF_updateF_ne (fs : Funcs) (k k2 : String) (b : Block) (h : k2 ≠ k) :
    lookupF (updateF fs k b) k2 = lookupF fs k2 := by
  induction fs with
  | nil => simp [updateF, lookupF, Ne.symm h]
  | cons hd tl ih =>
    obtain ⟨k0, b0⟩ := hd
    by_cases h0 : k0 = k
    · subst h0
      simp [updateF, lookupF, Ne.symm h]
    · by_cases h2 : k0 = k2 <;> simp [updateF, lookupF, h0, h2, h, ih]

/-- After the parse-phase registration fold, every name that was already
present or is declared in the remaining list has an entry. -/
theorem lookupF_register_fold (decls : List BlockDecl) (nm : String) :
    ∀ fs : Funcs,
      ((lookupF fs nm).isSome ∨ nm ∈ decls.map BlockDecl.func) →
      (lookupF (decls.foldl (fun fs d => updateF fs d.func (Block.fresh d.raw_sql)) fs) nm).isSome := by
  induction decls with
  | nil =>
    intro fs h
    simpa using h
  | cons d rest ih =>
    intro fs h
    rw [List.foldl_cons]
    apply ih
    by_cases hd : nm = d.func
    · left
      rw [hd, lookupF_updateF_self]
      rfl
    · rw [lookupF_updateF_ne fs d.func nm _ hd]
      rcases h with h | h
      · exact Or.inl h
      · rw [List.map_cons] at h
        rcases List.mem_cons.mp h with h1 | h1
        · exact absurd h1 hd
        · exact Or.inr h1

/-! ### Claims -/

/-- Claim C1: for every block whose registry entry has `is_cond = true`,
every invocation of its generator (with any keyword arguments or none) fails
with the `ScopeError`-style `SnaqlException`, independent of the render
engine and before any parameter resolution or rendering (the error does not
depend on `kwargs` or `env` at all). -/
theorem fn_cond_block_scope_error (env : Env) (funcs : Funcs)
    (name owner : String) (blk : Block) (kwargs : Kwargs)
    (hlook : lookupF funcs name = some blk)
    (hcond : blk.is_cond = true)
    (howner : blk.cond_for = some owner) :
    fn env funcs name kwargs = .error (.scopeError name owner) := by
  simp [fn, hlook, hcond, howner]

/-- Witness for C1: the conditional block `by_age` of the fixture registry
raises the scope error even when called with arguments. -/
theorem fn_cond_block_scope_error_witness :
    lookupF demoFuncs "by_age" = some byAgeBlock ∧
    byAgeBlock.is_cond = true ∧
    byAgeBlock.cond_for = some "users" ∧
    fn envDemo demoFuncs "by_age" [("x", Value.int 5)] =
      .error (.scopeError "by_age" "users") :=
  ⟨rfl, rfl, rfl,
    fn_cond_block_scope_error envDemo demoFuncs "by_age" "users" byAgeBlock
      [("x", Value.int 5)] rfl rfl rfl⟩

/-- Claim C5: a non-conditional block called with an empty parameter set
returns the precomputed `sql` unchanged, and any number of repeated
no-argument calls returns that exact value every time, the registry
untouched. -/
theorem fn_no_args_returns_sql (env : Env) (funcs : Funcs)
    (name : String) (blk : Block)
    (hlook : lookupF funcs name = some blk)
    (hnc : blk.is_cond = false) :
    fn env funcs name [] = .ok blk.sql ∧
    ∀ n : Nat, runCalls env (List.replicate n (name, ([] : Kwargs))) funcs =
      (List.replicate n (.ok blk.sql), funcs) := by
  have h1 : fn env funcs name [] = .ok blk.sql := by
    simp [fn, hlook, hnc]
  refine ⟨h1, ?_⟩
  intro n
  induction n with
  | zero => rfl
  | succ m ih => simp [List.replicate_succ, runCalls, fnCall, h1, ih]

/-- Witness for C5: three no-argument calls on the fixture block `users` all
return its static `sql`. -/
theorem fn_no_args_returns_sql_witness :
    lookupF demoFuncs "users" = some usersBlock ∧
    usersBlock.is_cond = false ∧
    fn envDemo demoFuncs "users" [] = .ok usersBlock.sql ∧
    runCalls envDemo (List.replicate 3 ("users", ([] : Kwargs))) demoFuncs =
      (List.replicate 3 (.ok usersBlock.sql), demoFuncs) := by
  have h := fn_no_args_returns_sql envDemo demoFuncs "users" usersBlock rfl rfl
  exact ⟨rfl, rfl, h.1, h.2 3⟩

/-- Claim C7: a parametrized call on a non-conditional block returns
`escape_string` of the stripped render of the block's `raw_sql` over the
resolved keyword set, while the zero-argument path returns the static `sql`
with no `escape_string` applied (the asymmetry of factory.py lines 172-177). -/
theorem fn_escape_asymmetry (env : Env) (funcs : Funcs)
    (name : String) (blk : Block)
    (hlook : lookupF funcs name = some blk)
    (hnc : blk.is_cond = false) :
    fn env funcs name [] = .ok blk.sql ∧
    ∀ kwargs cur, kwargs ≠ [] →
      resolveLoop env funcs name kwargs kwargs = .ok cur →
      fn env funcs name kwargs = .ok (escape_string ((env blk.raw_sql cur).pyStripped)) := by
  constructor
  · simp [fn, hlook, hnc]
  · intro kwargs cur hne hres
    simp [fn, hlook, hnc, List.isEmpty_iff, hne, hres]

/-- Witness for C7: on the fixture, the zero-argument call returns the static
`sql` — whose `escape_string` image differs from it, since it contains a
single quote — while a parametrized call routes through `escape_string`. -/
theorem fn_escape_asymmetry_witness :
    lookupF demoFuncs "users" = some usersBlock ∧
    usersBlock.is_cond = false ∧
    fn envDemo demoFuncs "users" [] = .ok usersBlock.sql ∧
    escape_string usersBlock.sql ≠ usersBlock.sql ∧
    fn envDemo demoFuncs "users" [("c", Value.text "x")] =
      .ok (escape_string ((envDemo usersBlock.raw_sql
        [("c", Value.text "x")]).pyStripped)) := by
  have h := fn_escape_asymmetry envDemo demoFuncs "users" usersBlock rfl rfl
  refine ⟨rfl, rfl, h.1, by decide, ?_⟩
  exact h.2 [("c", Value.text "x")] [("c", Value.text "x")] (by simp) rfl

/-- Claim C8: generator calls never mutate the registry snapshot: after any
sequence of calls (successful or failing) the registry — hence every block's
`raw_sql`, `sql`, `note`, `is_cond`, `cond_for` and `conds` — is unchanged,
and every call's outcome is a function of the original snapshot alone. -/
theorem gen_funcs_preserve_registry (env : Env) (funcs : Funcs)
    (calls : List (String × Kwargs)) :
    runCalls env calls funcs =
      (calls.map (fun c => fn env funcs c.1 c.2), funcs) := by
  induction calls with
  | nil => rfl
  | cons c rest ih => simp [runCalls, fnCall, ih]

/-- Claim C2: calling block `A` with a keyword whose value is a conditional
generator whose recorded owner is not `A` fails with the
`ConditionMismatchError`-style `SnaqlException` naming the conditional and
`A`.  The mismatching argument may sit anywhere in the keyword set, provided
the arguments processed before it resolve without an exception (`hpre`). -/
theorem fn_cond_mismatch_error (env : Env) (funcs : Funcs)
    (name f point owner : String) (ablk cblk : Block)
    (pre post : List (String × Value)) (cur : Kwargs)
    (ha : lookupF funcs name = some ablk)
    (hnc : ablk.is_cond = false)
    (hpre : resolveLoop env funcs name pre
      (pre ++ (point, Value.callable f (some true)) :: post) = .ok cur)
    (hc : lookupF funcs f = some cblk)
    (hcf : cblk.cond_for = some owner)
    (hne : owner ≠ name) :
    fn env funcs name (pre ++ (point, Value.callable f (some true)) :: post) =
      .error (.condMismatch f name) := by
  have hkw : (pre ++ (point, Value.callable f (some true)) :: post) ≠ [] := by
    simp
  have hsub : subrender_cond env funcs name (Value.callable f (some true)) cur =
      .error (.condMismatch f name) := by
    simp [subrender_cond, hc, hcf, hne]
  have hloop : resolveLoop env funcs name
      (pre ++ (point, Value.callable f (some true)) :: post)
      (pre ++ (point, Value.callable f (some true)) :: post) =
      .error (.condMismatch f name) := by
    rw [resolveLoop_append, hpre]
    show resolveLoop env funcs name
      ((point, Value.callable f (some true)) :: post) cur =
      Except.error (PyErr.condMismatch f name)
    rw [resolveLoop_cons, hsub]
  simp [fn, ha, hnc, List.isEmpty_iff, hkw, hloop]

/-- Witness for C2: `users(c=by_city_generator)` fails with the mismatch
error, `by_city` being owned by `orders`, not `users`. -/
theorem fn_cond_mismatch_error_witness :
    lookupF demoFuncs "users" = some usersBlock ∧
    usersBlock.is_cond = false ∧
    lookupF demoFuncs "by_city" = some byCityBlock ∧
    byCityBlock.cond_for = some "orders" ∧
    "orders" ≠ "users" ∧
    fn envDemo demoFuncs "users" [("c", Value.callable "by_city" (some true))] =
      .error (.condMismatch "by_city" "users") := by
  refine ⟨rfl, rfl, rfl, rfl, by decide, ?_⟩
  exact fn_cond_mismatch_error envDemo demoFuncs "users" "by_city" "c" "orders"
    usersBlock byCityBlock [] [] [("c", Value.callable "by_city" (some true))]
    rfl rfl rfl rfl rfl (by decide)

/-- Claim C9: a keyword argument whose value is a plain callable that does
not carry an `is_cond` attribute makes parameter resolution raise
`AttributeError` — a raw Python error, not one of the library's
`SnaqlException`s. -/
theorem fn_plain_callable_attribute_error (env : Env) (funcs : Funcs)
    (name f point : String) (ablk : Block)
    (pre post : List (String × Value)) (cur : Kwargs)
    (ha : lookupF funcs name = some ablk)
    (hnc : ablk.is_cond = false)
    (hpre : resolveLoop env funcs name pre
      (pre ++ (point, Value.callable f none) :: post) = .ok cur) :
    fn env funcs name (pre ++ (point, Value.callable f none) :: post) =
      .error (.attributeError "is_cond") ∧
    (PyErr.attributeError "is_cond").isSnaqlException = false := by
  have hkw : (pre ++ (point, Value.callable f none) :: post) ≠ [] := by
    simp
  have hsub : subrender_cond env funcs name (Value.callable f none) cur =
      .error (.attributeError "is_cond") := rfl
  have hloop : resolveLoop env funcs name
      (pre ++ (point, Value.callable f none) :: post)
      (pre ++ (point, Value.callable f none) :: post) =
      .error (.attributeError "is_cond") := by
    rw [resolveLoop_append, hpre]
    show resolveLoop env funcs name
      ((point, Value.callable f none) :: post) cur =
      Except.error (PyErr.attributeError "is_cond")
    rw [resolveLoop_cons, hsub]
  exact ⟨by simp [fn, ha, hnc, List.isEmpty_iff, hkw, hloop], rfl⟩

/-- Witness for C9: `users(c=<plain function>)` raises the embedded
`AttributeError`. -/
theorem fn_plain_callable_attribute_error_witness :
    lookupF demoFuncs "users" = some usersBlock ∧
    usersBlock.is_cond = false ∧
    fn envDemo demoFuncs "users" [("c", Value.callable "rogue" none)] =
      .error (.attributeError "is_cond") ∧
    (PyErr.attributeError "is_cond").isSnaqlException = false := by
  have h := fn_plain_callable_attribute_error envDemo demoFuncs "users" "rogue"
    "c" usersBlock [] [] [("c", Value.callable "rogue" none)] rfl rfl rfl
  exact ⟨rfl, rfl, h.1, h.2⟩

/-- Counterexample to claim C3 as stated: in `users(c=by_age_generator)`
with the conditional rendering to the empty string, the parameter is *not*
substituted as an empty value — the resolved keyword set still maps `c` to
the original callable (first two conjuncts) — and the rendered output *does*
contain the `WHERE` fragment, because the callable left in place is truthy
for the engine's conditional and is stringified into the output. -/
theorem fn_empty_cond_counterexample :
    resolveLoop envDemo demoFuncs "users" demoKw demoKw = .ok demoKw ∧
    lookupK demoKw "c" = some (Value.callable "by_age" (some true)) ∧
    fn envDemo demoFuncs "users" demoKw =
      .ok "SELECT * FROM users WHERE function by_age" ∧
    ("SELECT * FROM users WHERE function by_age" : String) ≠
      "SELECT * FROM users" :=
  ⟨by decide, rfl, by decide, by decide⟩

/-- Claim C3 (amended): a keyword whose value is a matching conditional
generator is resolved by rendering the conditional's `raw_sql` with the
current full parameter set and stripping; if the stripped result is
non-empty it is substituted in place of the original value, but if it is
empty the keyword keeps its original value (the still-truthy callable) — no
empty value is substituted, so whether the fragment disappears from the
owner's output depends on how the template treats the callable. -/
theorem fn_cond_subst_amended (env : Env) (funcs : Funcs)
    (name f point : String) (cblk : Block)
    (rest : List (String × Value)) (cur : Kwargs)
    (hc : lookupF funcs f = some cblk)
    (hcf : cblk.cond_for = some name) :
    resolveLoop env funcs name ((point, Value.callable f (some true)) :: rest) cur =
      resolveLoop env funcs name rest
        (if ((env cblk.raw_sql cur).pyStripped).isEmpty then cur
         else updateK cur point (Value.text ((env cblk.raw_sql cur).pyStripped))) := by
  have hsub : subrender_cond env funcs name (Value.callable f (some true)) cur =
      .ok (.text ((env cblk.raw_sql cur).pyStripped)) := by
    simp [subrender_cond, hc, hcf]
  rw [resolveLoop_cons, hsub]
  by_cases he : ((env cblk.raw_sql cur).pyStripped).isEmpty <;>
    simp [Value.truthy, Value.isNonTextIterable, he]

/-- Witness for the amended C3: with no `flag` in the context, `by_age`
renders to the empty string and the keyword set is left unchanged; the same
theorem at a context carrying a truthy `flag` substitutes the non-empty
fragment. -/
theorem fn_cond_subst_amended_witness :
    lookupF demoFuncs "by_age" = some byAgeBlock ∧
    byAgeBlock.cond_for = some "users" ∧
    resolveLoop envDemo demoFuncs "users"
      [("c", Value.callable "by_age" (some true))] demoKw = .ok demoKw ∧
    resolveLoop envDemo demoFuncs "users"
      [("c", Value.callable "by_age" (some true))]
      (("flag", Value.int 1) :: demoKw) =
      .ok (updateK (("flag", Value.int 1) :: demoKw) "c"
        (Value.text "AND age > 21")) := by
  refine ⟨rfl, rfl, ?_, ?_⟩
  · rw [fn_cond_subst_amended envDemo demoFuncs "users" "by_age" "c" byAgeBlock
      [] demoKw rfl rfl]
    decide
  · rw [fn_cond_subst_amended envDemo demoFuncs "users" "by_age" "c" byAgeBlock
      [] (("flag", Value.int 1) :: demoKw) rfl rfl]
    decide

/-- For a list of matching conditional generators, the comprehension
`[subrender_cond(name, v, kwargs) for v in val]` resolves each element to the
stripped render of its block's `raw_sql` over the fixed current context. -/
theorem mapSubrender_conds (env : Env) (funcs : Funcs) (name : String)
    (fs : List String) (cur : Kwargs)
    (hall : ∀ f ∈ fs, ∃ cblk, lookupF funcs f = some cblk ∧
      cblk.cond_for = some name) :
    mapSubrender env funcs name
      (fs.map (fun f => Value.callable f (some true))) cur =
      .ok (fs.map (fun f => Value.text ((env (rawOf funcs f) cur).pyStripped))) := by
  induction fs with
  | nil => rfl
  | cons f rest ih =>
    obtain ⟨cblk, hc, hcf⟩ := hall f (List.mem_cons_self f rest)
    have hsub : subrender_cond env funcs name (Value.callable f (some true)) cur =
        .ok (.text ((env (rawOf funcs f) cur).pyStripped)) := by
      simp [subrender_cond, hc, hcf, rawOf]
    have ihr := ih (fun g hg => hall g (List.mem_cons_of_mem f hg))
    simp only [List.map_cons, mapSubrender]
    rw [hsub, ihr]

/-- Filtering truthy text values is dropping the empty strings, in order. -/
theorem filter_truthy_text (ts : List String) :
    (ts.map Value.text).filter Value.truthy =
      (ts.filter (fun t => !t.isEmpty)).map Value.text := by
  induction ts with
  | nil => rfl
  | cons t rest ih =>
    by_cases ht : t.isEmpty <;>
      simp [List.filter_cons, Value.truthy, ht, ih]

/-- Claim C6: a keyword whose value is an ordered non-text sequence of
matching conditional generators is resolved elementwise (each element like a
single conditional value, over the context `cur1` reached after this
iteration's first substitution step), elements whose resolved text is empty
are dropped, and the order of the remaining elements is preserved — the
conclusion's `List.filter` keeps the surviving renders in their original
relative order, yielding a possibly shorter sequence. -/
theorem fn_list_cond_resolution (env : Env) (funcs : Funcs)
    (name point : String) (fs : List String)
    (rest : List (String × Value)) (cur cur1 : Kwargs)
    (hall : ∀ f ∈ fs, ∃ cblk, lookupF funcs f = some cblk ∧
      cblk.cond_for = some name)
    (hcur1 : cur1 = if fs.isEmpty then cur
      else updateK cur point
        (Value.list (fs.map (fun f => Value.callable f (some true))))) :
    resolveLoop env funcs name
      ((point, Value.list (fs.map (fun f => Value.callable f (some true)))) :: rest)
      cur =
      resolveLoop env funcs name rest
        (updateK cur1 point (Value.list
          (((fs.map (fun f => (env (rawOf funcs f) cur1).pyStripped)).filter
              (fun t => !t.isEmpty)).map Value.text))) := by
  have hvs : (fs.map (fun f => Value.callable f (some true))).isEmpty = fs.isEmpty := by
    cases fs <;> rfl
  have hsub : subrender_cond env funcs name
      (Value.list (fs.map (fun f => Value.callable f (some true)))) cur =
      .ok (Value.list (fs.map (fun f => Value.callable f (some true)))) := rfl
  rw [resolveLoop_cons, hsub]
  simp only [Value.truthy, Value.isNonTextIterable, Value.elems, if_true, hvs]
  have hcur1' : (if (!fs.isEmpty) = true then
      updateK cur point (Value.list (fs.map (fun f => Value.callable f (some true))))
      else cur) = cur1 := by
    by_cases hfe : fs.isEmpty <;> simp [hfe, hcur1]
  rw [hcur1']
  rw [mapSubrender_conds env funcs name fs cur1 hall]
  show resolveLoop env funcs name rest
      (updateK cur1 point (Value.list
        ((fs.map (fun f => Value.text ((env (rawOf funcs f) cur1).pyStripped))).filter
          Value.truthy))) = _
  rw [show (fs.map (fun f => Value.text ((env (rawOf funcs f) cur1).pyStripped))) =
      ((fs.map (fun f => (env (rawOf funcs f) cur1).pyStripped)).map Value.text) by
    rw [List.map_map]; rfl]
  rw [filter_truthy_text]

/-- Witness for C6: the sequence `[by_age, by_status]` resolves with `by_age`
rendering empty (dropped) and `by_status` kept, in order. -/
theorem fn_list_cond_resolution_witness :
    lookupF demoFuncs "by_age" = some byAgeBlock ∧
    byAgeBlock.cond_for = some "users" ∧
    lookupF demoFuncs "by_status" = some byStatusBlock ∧
    byStatusBlock.cond_for = some "users" ∧
    resolveLoop envDemo demoFuncs "users"
      [("cs", Value.list [Value.callable "by_age" (some true),
                          Value.callable "by_status" (some true)])]
      [("cs", Value.list [Value.callable "by_age" (some true),
                          Value.callable "by_status" (some true)])] =
      .ok [("cs", Value.list [Value.text "AND status = 1"])] := by
  refine ⟨rfl, rfl, rfl, rfl, ?_⟩
  have h := fn_list_cond_resolution envDemo demoFuncs "users" "cs"
    ["by_age", "by_status"] []
    [("cs", Value.list [Value.callable "by_age" (some true),
                        Value.callable "by_status" (some true)])]
    [("cs", Value.list [Value.callable "by_age" (some true),
                        Value.callable "by_status" (some true)])]
    (by
      intro f hf
      rcases List.mem_cons.mp hf with h1 | h1
      · exact h1 ▸ ⟨byAgeBlock, rfl, rfl⟩
      · rcases List.mem_cons.mp h1 with h2 | h2
        · exact h2 ▸ ⟨byStatusBlock, rfl, rfl⟩
        · exact absurd h2 (List.not_mem_nil f))
    rfl
  exact h.trans (by decide)

/-- Counterexample to claim C4 as stated: normalizing a file whose block
`by_age` declares `cond_for = users` appends `"users"` — the *owner's own
name*, i.e. the value of `cond_for` — to the owner's `conds` list, not the
conditional's name `"by_age"` as the claim states. -/
theorem sql_process_conds_counterexample :
    renderTemplate demoDecls = .ok demoNormalized ∧
    (lookupF demoNormalized "users").map Block.conds = some ["users"] ∧
    (some ["users"] : Option (List String)) ≠ some ["by_age"] :=
  ⟨rfl, by decide, by decide⟩

/-- Claim C4 (amended): during normalization, a block declared
`cond_for = X` appends the value of `cond_for` — `X` itself, not the
conditional's own name — to `X`'s `conds` list, and only when `X`'s registry
entry already exists; a missing owner entry is silently skipped, never
created.  Declaration order is still immaterial, because the parse phase
registers an entry for every declared block before the normalization render
runs (third conjunct). -/
theorem sql_process_conds_amended (funcs : Funcs) (d : BlockDecl)
    (owner : String) (fb : Block)
    (hcf : d.cond_for = some owner)
    (hne : owner ≠ d.func)
    (hf : lookupF funcs d.func = some fb) :
    (∀ ob, lookupF funcs owner = some ob →
      sql_process funcs d =
        .ok (updateF (updateF funcs owner { ob with conds := ob.conds ++ [owner] })
          d.func
          { fb with
            sql := pyCollapseWs d.body
            note := d.note
            is_cond := true
            cond_for := some owner }) ∧
      lookupF (updateF (updateF funcs owner { ob with conds := ob.conds ++ [owner] })
          d.func
          { fb with
            sql := pyCollapseWs d.body
            note := d.note
            is_cond := true
            cond_for := some owner }) owner =
        some { ob with conds := ob.conds ++ [owner] }) ∧
    (lookupF funcs owner = none →
      sql_process funcs d =
        .ok (updateF funcs d.func
          { fb with
            sql := pyCollapseWs d.body
            note := d.note
            is_cond := true
            cond_for := some owner }) ∧
      lookupF (updateF funcs d.func
          { fb with
            sql := pyCollapseWs d.body
            note := d.note
            is_cond := true
            cond_for := some owner }) owner = none) ∧
    (∀ decls : List BlockDecl, ∀ nm ∈ decls.map BlockDecl.func,
      (lookupF (registerBlocks decls) nm).isSome) := by
  refine ⟨?_, ?_, ?_⟩
  · intro ob hob
    have hmid : lookupF (updateF funcs owner { ob with conds := ob.conds ++ [owner] })
        d.func = some fb := by
      rw [lookupF_updateF_ne _ _ _ _ (Ne.symm hne)]
      exact hf
    constructor
    · simp [sql_process, hcf, hob, hmid]
    · rw [lookupF_updateF_ne _ _ _ _ hne, lookupF_updateF_self]
  · intro hnone
    constructor
    · simp [sql_process, hcf, hnone, hf]
    · rw [lookupF_updateF_ne _ _ _ _ hne]
      exact hnone
  · intro decls nm hnm
    exact lookupF_register_fold decls nm [] (Or.inr hnm)

/-- Witness for the amended C4: processing `by_age` (with `cond_for = users`)
over the freshly registered `demoDecls` registry appends `"users"` to the
`users` entry's `conds` list. -/
theorem sql_process_conds_amended_witness :
    declByAge.cond_for = some "users" ∧
    ("users" : String) ≠ "by_age" ∧
    lookupF (registerBlocks demoDecls) "by_age" = some (Block.fresh "BY_AGE_TMPL") ∧
    lookupF (registerBlocks demoDecls) "users" = some (Block.fresh "USERS_TMPL") ∧
    sql_process (registerBlocks demoDecls) declByAge =
      .ok (updateF (updateF (registerBlocks demoDecls) "users"
          { Block.fresh "USERS_TMPL" with conds := ["users"] }) "by_age"
          { Block.fresh "BY_AGE_TMPL" with
            sql := pyCollapseWs declByAge.body
            note := none
            is_cond := true
            cond_for := some "users" }) ∧
    lookupF (updateF (updateF (registerBlocks demoDecls) "users"
          { Block.fresh "USERS_TMPL" with conds := ["users"] }) "by_age"
          { Block.fresh "BY_AGE_TMPL" with
            sql := pyCollapseWs declByAge.body
            note := none
            is_cond := true
            cond_for := some "users" }) "users" =
      some { Block.fresh "USERS_TMPL" with conds := ["users"] } := by
  have h := (sql_process_conds_amended (registerBlocks demoDecls) declByAge
    "users" (Block.fresh "BY_AGE_TMPL") rfl (by decide) rfl).1
    (Block.fresh "USERS_TMPL") rfl
  exact ⟨rfl, by decide, rfl, rfl, h.1, h.2⟩

/-- Registry snapshots agreeing up to `conds` look up to entries agreeing up
to `conds` (or both miss). -/
theorem lookupF_agrees (fs1 fs2 : Funcs) (h : FuncsAgreeExceptConds fs1 fs2)
    (nm : String) :
    (lookupF fs1 nm = none ∧ lookupF fs2 nm = none) ∨
    ∃ b1 b2, lookupF fs1 nm = some b1 ∧ lookupF fs2 nm = some b2 ∧
      Block.AgreesExceptConds b1 b2 := by
  induction fs1 generalizing fs2 with
  | nil =>
    cases h
    exact Or.inl ⟨rfl, rfl⟩
  | cons p l1 ih =>
    cases h with
    | cons hpq htail =>
      rename_i q l2
      obtain ⟨k1, b1⟩ := p
      obtain ⟨k2, b2⟩ := q
      obtain ⟨hk, hb⟩ := hpq
      simp only at hk
      subst hk
      by_cases hknm : k1 = nm
      · exact Or.inr ⟨b1, b2, by simp [lookupF, hknm], by simp [lookupF, hknm], hb⟩
      · simpa [lookupF, hknm] using ih l2 htail

/-- `subrender_cond` never reads `conds`: it behaves identically on registry
snapshots that agree up to `conds`. -/
theorem subrender_cond_agrees (env : Env) (fs1 fs2 : Funcs)
    (h : FuncsAgreeExceptConds fs1 fs2) (name : String) (v : Value)
    (ctx : Kwargs) :
    subrender_cond env fs1 name v ctx = subrender_cond env fs2 name v ctx := by
  cases v with
  | text s => rfl
  | int n => rfl
  | list vs => rfl
  | callable f ic =>
    cases ic with
    | none => rfl
    | some b =>
      cases b with
      | false => rfl
      | true =>
        rcases lookupF_agrees fs1 fs2 h f with ⟨h1, h2⟩ | ⟨b1, b2, h1, h2, hb⟩
        · simp [subrender_cond, h1, h2]
        · obtain ⟨hraw, _, _, _, hcf⟩ := hb
          simp [subrender_cond, h1, h2, hraw, hcf]

/-- The comprehension over elements never reads `conds` either. -/
theorem mapSubrender_agrees (env : Env) (fs1 fs2 : Funcs)
    (h : FuncsAgreeExceptConds fs1 fs2) (name : String) (vs : List Value)
    (ctx : Kwargs) :
    mapSubrender env fs1 name vs ctx = mapSubrender env fs2 name vs ctx := by
  induction vs with
  | nil => rfl
  | cons v rest ih =>
    simp only [mapSubrender]
    rw [subrender_cond_agrees env fs1 fs2 h name v ctx, ih]

/-- The resolution loop never reads `conds`. -/
theorem resolveLoop_agrees (env : Env) (fs1 fs2 : Funcs)
    (h : FuncsAgreeExceptConds fs1 fs2) (name : String)
    (items : List (String × Value)) :
    ∀ cur, resolveLoop env fs1 name items cur = resolveLoop env fs2 name items cur := by
  induction items with
  | nil => intro cur; rfl
  | cons item rest ih =>
    intro cur
    obtain ⟨point, val⟩ := item
    rw [resolveLoop_cons, resolveLoop_cons,
      subrender_cond_agrees env fs1 fs2 h name val cur]
    cases subrender_cond env fs2 name val cur with
    | error e => rfl
    | ok m =>
      by_cases hit : val.isNonTextIterable
      · simp only [hit, if_true]
        rw [mapSubrender_agrees env fs1 fs2 h name val.elems _]
        cases mapSubrender env fs2 name val.elems
            (if m.truthy then updateK cur point m else cur) with
        | error e => rfl
        | ok vals => exact ih _
      · simp only [hit, if_false, Bool.false_eq_true]
        exact ih _

/-- Claim C10: the `conds` field is dead data for the generator protocol.
For any two registry snapshots that differ only in the `conds` lists of
their blocks, every generator invocation produces the identical outcome
(same value or same error) on every input and under every render engine,
and generator construction attaches the same attributes; ownership
validation uses only the conditional's recorded `cond_for`. -/
theorem conds_never_read (fs1 fs2 : Funcs) (h : FuncsAgreeExceptConds fs1 fs2)
    (env : Env) (name : String) (kwargs : Kwargs) :
    fn env fs1 name kwargs = fn env fs2 name kwargs ∧
    genAttrs fs1 name = genAttrs fs2 name := by
  constructor
  · rcases lookupF_agrees fs1 fs2 h name with ⟨h1, h2⟩ | ⟨b1, b2, h1, h2, hb⟩
    · simp [fn, h1, h2]
    · obtain ⟨hraw, hsql, hnote, hic, hcf⟩ := hb
      simp only [fn, h1, h2, hraw, hsql, hic, hcf,
        resolveLoop_agrees env fs1 fs2 h name kwargs kwargs]
  · rcases lookupF_agrees fs1 fs2 h name with ⟨h1, h2⟩ | ⟨b1, b2, h1, h2, hb⟩
    · simp [genAttrs, h1, h2]
    · obtain ⟨_, _, hnote, hic, _⟩ := hb
      simp [genAttrs, h1, h2, hnote, hic]

/-- Witness for C10: `demoFuncs` and `demoFuncsAltConds` differ only in
`conds`, and a generator call plus the generator attributes coincide. -/
theorem conds_never_read_witness :
    FuncsAgreeExceptConds demoFuncs demoFuncsAltConds ∧
    fn envDemo demoFuncs "users" demoKw =
      fn envDemo demoFuncsAltConds "users" demoKw ∧
    genAttrs demoFuncs "users" = genAttrs demoFuncsAltConds "users" := by
  have hagree : FuncsAgreeExceptConds demoFuncs demoFuncsAltConds := by
    refine List.Forall₂.cons ⟨rfl, ?_⟩ (List.Forall₂.cons ⟨rfl, ?_⟩
      (List.Forall₂.cons ⟨rfl, ?_⟩ (List.Forall₂.cons ⟨rfl, ?_⟩
        List.Forall₂.nil))) <;>
      exact ⟨rfl, rfl, rfl, rfl, rfl⟩
  have h := conds_never_read demoFuncs demoFuncsAltConds hagree envDemo
    "users" demoKw
  exact ⟨hagree, h.1, h.2⟩

end Snaql
